import Mathlib

/-!
Verification of the healthcare-mcp server variants: the session/transport
lifecycle (GET / POST / OPTIONS / DELETE handling on the /mcp endpoint),
the tool dispatch with its usage ledger, and the TTL cache contract.

The servers keep their live sessions in a JavaScript Map from session
identifier to transport handle.  We embed that map as an association list
with at most one entry per key, and embed each request handler as a pure
function from the relevant request data and the current map to the
response and the updated map.
-/

namespace HealthcareMcp

/-- Model of a JavaScript Map with string keys: an association list with at
most one live entry per key.  Mirrors the `transports` map of
mcp-server.js and the `sessions` map of the part_001 variant; the value
type is the transport handle, kept abstract. -/
abbrev JsMap (α : Type) : Type := List (String × α)

/-- Map.get: the value stored at a key, if any. -/
def JsMap.get {α : Type} : JsMap α → String → Option α
  | [], _ => none
  | (k, v) :: rest, key => if k = key then some v else JsMap.get rest key

/-- Map.has: whether a key is present. -/
def JsMap.has {α : Type} : JsMap α → String → Bool
  | [], _ => false
  | (k, _) :: rest, key => if k = key then true else JsMap.has rest key

/-- Map.set: overwrite the entry for a key if present, else append it. -/
def JsMap.set {α : Type} : JsMap α → String → α → JsMap α
  | [], key, v => [(key, v)]
  | (k, w) :: rest, key, v =>
    if k = key then (key, v) :: rest else (k, w) :: JsMap.set rest key v

/-- Map.delete: remove the entry for a key; absent keys are left alone. -/
def JsMap.delete {α : Type} : JsMap α → String → JsMap α
  | [], _ => []
  | (k, v) :: rest, key =>
    if k = key then JsMap.delete rest key else (k, v) :: JsMap.delete rest key

theorem JsMap.get_set_self {α : Type} (t : JsMap α) (k : String) (v : α) :
    (t.set k v).get k = some v := by
  induction t with
  | nil => simp [JsMap.set, JsMap.get]
  | cons hd tl ih =>
    obtain ⟨k', v'⟩ := hd
    by_cases h : k' = k
    · simp [JsMap.set, JsMap.get, h]
    · simp [JsMap.set, JsMap.get, h, ih]

theorem JsMap.get_set_ne {α : Type} (t : JsMap α) (k key : String) (v : α)
    (h : k ≠ key) : (t.set k v).get key = t.get key := by
  induction t with
  | nil => simp [JsMap.set, JsMap.get, h]
  | cons hd tl ih =>
    obtain ⟨k', v'⟩ := hd
    by_cases hk : k' = k
    · subst hk
      simp [JsMap.set, JsMap.get, h]
    · by_cases hkey : k' = key
      · subst hkey
        simp [JsMap.set, JsMap.get, hk]
      · simp [JsMap.set, JsMap.get, hk, hkey, ih]

theorem JsMap.get_delete_self {α : Type} (t : JsMap α) (k : String) :
    (t.delete k).get k = none := by
  induction t with
  | nil => simp [JsMap.delete, JsMap.get]
  | cons hd tl ih =>
    obtain ⟨k', v'⟩ := hd
    by_cases h : k' = k
    · simp [JsMap.delete, h, ih]
    · simp [JsMap.delete, JsMap.get, h, ih]

theorem JsMap.get_delete_ne {α : Type} (t : JsMap α) (k key : String)
    (h : k ≠ key) : (t.delete k).get key = t.get key := by
  induction t with
  | nil => simp [JsMap.delete]
  | cons hd tl ih =>
    obtain ⟨k', v'⟩ := hd
    by_cases hk : k' = k
    · subst hk
      simp [JsMap.delete, JsMap.get, ih, h]
    · simp [JsMap.delete, JsMap.get, hk, ih]

theorem JsMap.delete_delete {α : Type} (t : JsMap α) (k : String) :
    (t.delete k).delete k = t.delete k := by
  induction t with
  | nil => simp [JsMap.delete]
  | cons hd tl ih =>
    obtain ⟨k', v'⟩ := hd
    by_cases h : k' = k
    · simp [JsMap.delete, h, ih]
    · simp [JsMap.delete, h, ih]

theorem JsMap.has_eq_false_iff_get_eq_none {α : Type} (t : JsMap α) (k : String) :
    t.has k = false ↔ t.get k = none := by
  induction t with
  | nil => simp [JsMap.has, JsMap.get]
  | cons hd tl ih =>
    obtain ⟨k', v'⟩ := hd
    by_cases h : k' = k
    · simp [JsMap.has, JsMap.get, h]
    · simp [JsMap.has, JsMap.get, h, ih]

/-! ## Session / transport manager

Embedding of the GET and POST branches of the /mcp endpoint handlers of
mcp-server.js (query-parameter sessions, 404 on miss) and of the part_001
variant (header-or-query sessions, 401 on miss).  Response bodies are kept
structured rather than as raw JSON text. -/

/-- Response body written on a rejected request: either plain text
(res.end of a string) or a JSON object with a single error field
(JSON.stringify of an error object). -/
inductive Body : Type
  | text (s : String)
  | errObj (message : String)
  | rpcError (code : Int) (message : String)
  deriving DecidableEq, Repr

/-- Outcome of the POST /mcp branch: either a rejection written straight to
the response, or the message is forwarded to the transport stored for the
session (transport.handlePostMessage). -/
inductive PostOutcome (α : Type) : Type
  | rejected (status : Nat) (body : Body)
  | forwarded (transport : α)
  deriving DecidableEq, Repr

/-- GET /mcp in mcp-server.js and part_001: a session identifier is drawn
from the random generator (modelled as the argument genId, the value
randomUUID returned), a transport is constructed, and the pair is stored
in the live session map with Map.set; the identifier and the transport are
both returned to the caller.  No check against the live map is made before
the set. -/
def openChannel {α : Type} (t : JsMap α) (genId : String) (transport : α) :
    String × JsMap α :=
  (genId, t.set genId transport)

/-- The close handler registered with req.on for both stateful variants:
Map.delete of the session entry.  Runs on client disconnect; deleting an
absent key is a no-op in JavaScript, so no distinction is made. -/
def closeChannel {α : Type} (t : JsMap α) (sessionId : String) : JsMap α :=
  t.delete sessionId

/-- Session identifier used for the POST lookup in mcp-server.js line 176:
only the sessionId query parameter is read.  The header argument carries
the x-mcp-session-id request header so the resolution can be compared with
the part_001 variant; the source never consults it. -/
def sessionKeyMain (header query : Option String) : Option String :=
  query

/-- Session identifier used for the POST lookup in the part_001 variant
line 190: the x-mcp-session-id header, falling back to the sessionId query
parameter under the JavaScript or-else, where an empty header string is
falsy and also falls through. -/
def sessionKey001 (header query : Option String) : Option String :=
  match header with
  | some h => if h = "" then query else some h
  | none => query

/-- The truthiness test a resolved session identifier must pass in both
POST handlers: JavaScript !sessionId is true for null and for the empty
string. -/
def truthy : Option String → Bool
  | none => false
  | some s => !(s = "")

/-- POST /mcp in mcp-server.js lines 175 to 189: resolve the session
identifier from the query parameter; when it is falsy or absent from the
live map, write a 404 with a JSON error body and leave the map alone;
otherwise forward the message to the stored transport. -/
def postMessageMain {α : Type} (t : JsMap α) (header query : Option String) :
    PostOutcome α × JsMap α :=
  match sessionKeyMain header query with
  | none => (.rejected 404 (.errObj "Session not found. Connect via GET first."), t)
  | some sid =>
    if sid = "" then
      (.rejected 404 (.errObj "Session not found. Connect via GET first."), t)
    else
      match t.get sid with
      | none => (.rejected 404 (.errObj "Session not found. Connect via GET first."), t)
      | some transport => (.forwarded transport, t)

/-- POST /mcp in the part_001 variant lines 188 to 203: resolve the session
identifier from the header or the query parameter; when it is falsy or
absent from the live map, write a 401 with a JSON error body and leave the
map alone; otherwise forward the message to the stored transport. -/
def postMessage001 {α : Type} (t : JsMap α) (header query : Option String) :
    PostOutcome α × JsMap α :=
  match sessionKey001 header query with
  | none => (.rejected 401 (.errObj "Session ID required or invalid. Connect via GET /mcp first."), t)
  | some sid =>
    if sid = "" then
      (.rejected 401 (.errObj "Session ID required or invalid. Connect via GET /mcp first."), t)
    else
      match t.get sid with
      | none => (.rejected 401 (.errObj "Session ID required or invalid. Connect via GET /mcp first."), t)
      | some transport => (.forwarded transport, t)

/-! ## Method routing on the /mcp endpoint -/

/-- What each variant of the HTTP server does with a request, as a function
of method and path, before any session lookup happens. -/
inductive Action : Type
  /-- Write a status code and a body and finish the response. -/
  | respond (status : Nat) (body : Body)
  /-- Reply to a CORS preflight with 204 and no body. -/
  | preflight
  /-- Run the GET branch: open an SSE channel and register a session. -/
  | openSse
  /-- Run the POST branch: look the session up and forward the message. -/
  | postMsg
  /-- Hand the request to the shared SDK transport, transport.handleRequest,
  without inspecting the method. -/
  | delegate
  deriving DecidableEq, Repr

/-- Whether an action rejects the request at the server itself with an
error status. -/
def Action.isRejection : Action → Bool
  | .respond status _ => 400 ≤ status
  | _ => false

/-- Request routing of mcp-server.js lines 143 to 193: OPTIONS is answered
first on any path; on /mcp, GET opens the SSE channel and POST posts a
message; every other method on /mcp, and every other path, falls through
to a plain 404. -/
def routeMain (method path : String) : Action :=
  if method = "OPTIONS" then .preflight
  else if path = "/mcp" then
    if method = "GET" then .openSse
    else if method = "POST" then .postMsg
    else .respond 404 (.text "Not Found")
  else .respond 404 (.text "Not Found")

/-- Request routing of the part_001 variant lines 154 to 207: identical
shape to mcp-server.js except for the fallthrough body text. -/
def route001 (method path : String) : Action :=
  if method = "OPTIONS" then .preflight
  else if path = "/mcp" then
    if method = "GET" then .openSse
    else if method = "POST" then .postMsg
    else .respond 404 (.text "Not Found - Use /mcp endpoint")
  else .respond 404 (.text "Not Found - Use /mcp endpoint")

/-- Request routing of the stateless part_000 variant lines 203 to 258: on
/mcp, POST is handled statelessly, GET and DELETE are answered with an
explicit 405 JSON-RPC error, OPTIONS gets a preflight reply, and any other
method falls through to 404; every other path is 404. -/
def route000 (method path : String) : Action :=
  if path = "/mcp" then
    if method = "POST" then .postMsg
    else if method = "GET" ∨ method = "DELETE" then
      .respond 405 (.rpcError (-32000) "Method not allowed.")
    else if method = "OPTIONS" then .preflight
    else .respond 404 (.text "Not Found")
  else .respond 404 (.text "Not Found")

/-- Request routing of the part_002 variant lines 142 to 164: every request
to /mcp, whatever its method, is delegated to the shared
StreamableHTTPServerTransport via transport.handleRequest; other paths get
404. -/
def route002 (method path : String) : Action :=
  if path = "/mcp" then .delegate
  else .respond 404 (.text "Not Found")

/-! ## Usage ledger and tool dispatch -/

/-- Modelled from the spec: usage-service.js is imported by every server
variant but is not among the given sources.  Spec section 4.3 describes a
usage record keyed by session identifier and operation name holding a
monotonically increasing invocation count plus the timestamp of the last
invocation. -/
structure UsageEntry : Type where
  count : Nat
  lastSeen : Nat
  deriving DecidableEq, Repr

/-- The in-memory ledger of (session identifier, operation name) usage
records. -/
abbrev Ledger : Type := List ((String × String) × UsageEntry)

/-- Modelled from the spec: UsageService.recordUsage is not among the given
sources.  Spec section 4.3: increments the count for the pair, creating it
at one if absent, and updates the last-seen timestamp; no error
conditions. -/
def recordUsage : Ledger → String → String → Nat → Ledger
  | [], sessionId, operation, now => [((sessionId, operation), ⟨1, now⟩)]
  | (key, e) :: rest, sessionId, operation, now =>
    if key = (sessionId, operation) then
      (key, ⟨e.count + 1, now⟩) :: rest
    else
      (key, e) :: recordUsage rest sessionId operation now

/-- The invocation count the ledger holds for a pair, zero if absent. -/
def Ledger.count : Ledger → String → String → Nat
  | [], _, _ => 0
  | (key, e) :: rest, sessionId, operation =>
    if key = (sessionId, operation) then e.count
    else Ledger.count rest sessionId operation

/-- The operation names the CallTool switch of mcp-server.js (lines 114 to
119), part_001 and part_002 dispatches on; any other name falls to the
default branch that throws. -/
def toolRegistryMain : List String :=
  ["fda_drug_lookup", "pubmed_search", "calculate_bmi", "clinical_trials_search"]

/-- The operation names the CallTool switch of the part_000 variant (lines
173 to 183) dispatches on. -/
def toolRegistry000 : List String :=
  ["fda_drug_lookup", "pubmed_search", "calculate_bmi", "clinical_trials_search",
   "health_topics_search", "icd_code_lookup", "medrxiv_search",
   "ncbi_bookshelf_search", "dicom_extract_metadata"]

/-- The uniform response envelope of the CallTool handler: one content text
plus the isError flag, which JavaScript leaves absent on success, modelled
as false. -/
structure Envelope : Type where
  text : String
  isError : Bool
  deriving DecidableEq, Repr

/-- The CallTool request handler shared by all server variants (mcp-server.js
lines 106 to 126; part_000 lines 165 to 190; part_001 lines 109 to 139;
part_002 lines 106 to 126), parameterized by the operation names its
switch carries.  The session identifier is the hard-coded string
streamable-session.  Inside the try block usage is recorded first, then
the switch either invokes the collaborator for the operation (modelled as
collab, returning the serialized result or a thrown error message) or, on
the default branch, throws an unknown-tool error; the catch turns any
thrown error into an error envelope. -/
def handleCallTool (registry : List String) (collab : String → Except String String)
    (l : Ledger) (now : Nat) (name : String) : Ledger × Envelope :=
  let sessionId := "streamable-session"
  let l' := recordUsage l sessionId name now
  if registry.contains name then
    match collab name with
    | .ok result => (l', ⟨result, false⟩)
    | .error msg => (l', ⟨"Error: " ++ msg, true⟩)
  else
    (l', ⟨"Error: " ++ ("Unknown tool: " ++ name), true⟩)

/-! ## TTL cache -/

/-- Modelled from the spec: cache-service.js is imported by every server
variant but is not among the given sources.  Spec section 3: a cache entry
holds the stored value and the stored-at timestamp; the TTL is uniform
across entries. -/
structure CacheEntry (α : Type) : Type where
  value : α
  storedAt : Nat
  deriving DecidableEq, Repr

/-- Modelled from the spec: the CacheService state is its uniform TTL in
seconds, fixed at construction (86400 by default), and the backing
key/value store. -/
structure CacheService (α : Type) : Type where
  ttl : Nat
  store : JsMap (CacheEntry α)
  deriving DecidableEq, Repr

/-- Modelled from the spec: CacheService.set stores the value with
stored-at equal to now, overwriting any existing entry for the key and
resetting its TTL window. -/
def CacheService.set {α : Type} (c : CacheService α) (key : String) (v : α)
    (now : Nat) : CacheService α :=
  { c with store := c.store.set key ⟨v, now⟩ }

/-- Modelled from the spec: CacheService.get returns absent if the key was
never stored or if now minus stored-at is at least the TTL; a lazily
expired entry is removed from the backing store by this read.  Returns the
looked-up value together with the cache state after the read. -/
def CacheService.get {α : Type} (c : CacheService α) (key : String)
    (now : Nat) : Option α × CacheService α :=
  match c.store.get key with
  | none => (none, c)
  | some e =>
    if c.ttl ≤ now - e.storedAt then
      (none, { c with store := c.store.delete key })
    else
      (some e.value, c)

/-! ## Ledger helper lemmas -/

theorem recordUsage_count_self (l : Ledger) (sid op : String) (now : Nat) :
    (recordUsage l sid op now).count sid op = l.count sid op + 1 := by
  induction l with
  | nil => simp [recordUsage, Ledger.count]
  | cons hd tl ih =>
    obtain ⟨key, e⟩ := hd
    by_cases h : key = (sid, op)
    · simp [recordUsage, Ledger.count, h]
    · simp [recordUsage, Ledger.count, h, ih]

theorem recordUsage_count_ne (l : Ledger) (sid op sid' op' : String) (now : Nat)
    (h : (sid', op') ≠ (sid, op)) :
    (recordUsage l sid op now).count sid' op' = l.count sid' op' := by
  induction l with
  | nil => simp [recordUsage, Ledger.count, Ne.symm h]
  | cons hd tl ih =>
    obtain ⟨key, e⟩ := hd
    by_cases hk : key = (sid, op)
    · subst hk
      simp [recordUsage, Ledger.count, Ne.symm h]
    · by_cases hk' : key = (sid', op')
      · subst hk'
        simp [recordUsage, Ledger.count, hk]
      · simp [recordUsage, Ledger.count, hk, hk', ih]

/-! ## Claims -/

/-- Claim C1: a POST to /mcp whose session identifier is absent from the
live session map, never opened or already closed, is rejected with a
SessionNotFound-class 4xx response (404 in mcp-server.js, 401 in the
part_001 variant) rather than silently dropped, and the map is left
unchanged; in particular posting after closeChannel is rejected the same
way. -/
theorem postMessage_unknown_session_rejected {α : Type} (t : JsMap α)
    (sid : String) (hdr : Option String) :
    (t.get sid = none →
      postMessageMain t hdr (some sid) =
        (.rejected 404 (.errObj "Session not found. Connect via GET first."), t) ∧
      postMessage001 t none (some sid) =
        (.rejected 401
          (.errObj "Session ID required or invalid. Connect via GET /mcp first."),
         t)) ∧
    (postMessageMain (closeChannel t sid) hdr (some sid) =
        (.rejected 404 (.errObj "Session not found. Connect via GET first."),
         closeChannel t sid) ∧
      postMessage001 (closeChannel t sid) none (some sid) =
        (.rejected 401
          (.errObj "Session ID required or invalid. Connect via GET /mcp first."),
         closeChannel t sid)) := by
  constructor
  · intro hget
    constructor
    · by_cases hsid : sid = ""
      · simp [postMessageMain, sessionKeyMain, hsid]
      · simp [postMessageMain, sessionKeyMain, hsid, hget]
    · by_cases hsid : sid = ""
      · simp [postMessage001, sessionKey001, hsid]
      · simp [postMessage001, sessionKey001, hsid, hget]
  · have hget : (closeChannel t sid).get sid = none := JsMap.get_delete_self t sid
    constructor
    · by_cases hsid : sid = ""
      · simp [postMessageMain, sessionKeyMain, hsid]
      · simp [postMessageMain, sessionKeyMain, hsid, hget]
    · by_cases hsid : sid = ""
      · simp [postMessage001, sessionKey001, hsid]
      · simp [postMessage001, sessionKey001, hsid, hget]

/-- Witness for C1 at a concrete map holding only session a, posting to
session b. -/
theorem postMessage_unknown_session_rejected_witness :
    postMessageMain [("a", (0 : Nat))] none (some "b") =
      (.rejected 404 (.errObj "Session not found. Connect via GET first."),
       [("a", 0)]) ∧
    postMessage001 [("a", (0 : Nat))] none (some "b") =
      (.rejected 401
        (.errObj "Session ID required or invalid. Connect via GET /mcp first."),
       [("a", 0)]) :=
  (postMessage_unknown_session_rejected [("a", (0 : Nat))] "b" none).1 (by decide)

/-- Claim C2, counterexample: openChannel draws its identifier from
randomUUID with no collision check against the live map, so at a generated
identifier that equals a live one the Map.set overwrites the existing
channel; the claim that no open request ever overwrites the channel of an
existing live session is therefore false for the code as written. -/
theorem openChannel_overwrite_counterexample :
    ¬ (∀ (t : JsMap Nat) (genId : String) (ch : Nat) (k : String) (v : Nat),
        t.get k = some v → (openChannel t genId ch).2.get k = some v) := by
  intro hclaim
  have h2 := hclaim [("a", 0)] "a" 1 "a" 0 (by decide)
  have h3 : (openChannel [("a", (0 : Nat))] "a" 1).2.get "a" = some 1 := by decide
  rw [h3] at h2
  exact absurd h2 (by decide)

/-- Claim C2, amended: openChannel registers the generated identifier and
its channel and returns the identifier; whenever the generated identifier
is not already live, the new session is registered and every existing live
session keeps its channel.  Uniqueness rests on the random generator, not
on a collision check. -/
theorem openChannel_fresh_id_registers {α : Type} (t : JsMap α)
    (genId : String) (tr : α) (hfresh : t.has genId = false) :
    (openChannel t genId tr).1 = genId ∧
    (openChannel t genId tr).2.get genId = some tr ∧
    ∀ k v, t.get k = some v → (openChannel t genId tr).2.get k = some v := by
  refine ⟨rfl, JsMap.get_set_self t genId tr, ?_⟩
  intro k v hk
  by_cases hkg : k = genId
  · subst hkg
    rw [(JsMap.has_eq_false_iff_get_eq_none t k).mp hfresh] at hk
    exact absurd hk (by simp)
  · rw [openChannel, JsMap.get_set_ne t genId k tr (fun hh => hkg hh.symm)]
    exact hk

/-- Witness for C2 amended, opening session b over a map holding only
session a. -/
theorem openChannel_fresh_id_registers_witness :
    (openChannel [("a", (0 : Nat))] "b" 1).1 = "b" ∧
    (openChannel [("a", (0 : Nat))] "b" 1).2.get "b" = some 1 ∧
    (openChannel [("a", (0 : Nat))] "b" 1).2.get "a" = some 0 :=
  ⟨(openChannel_fresh_id_registers [("a", (0 : Nat))] "b" 1 (by decide)).1,
   (openChannel_fresh_id_registers [("a", (0 : Nat))] "b" 1 (by decide)).2.1,
   (openChannel_fresh_id_registers [("a", (0 : Nat))] "b" 1 (by decide)).2.2
     "a" 0 (by decide)⟩

/-- Claim C3: closeChannel is idempotent: the first call removes the
session entry, and a second call for the same identifier leaves the map
exactly as the first call left it; being a total function it cannot raise,
and the same Map.delete runs whatever triggered the closure. -/
theorem closeChannel_idempotent {α : Type} (t : JsMap α) (sid : String) :
    (closeChannel t sid).get sid = none ∧
    closeChannel (closeChannel t sid) sid = closeChannel t sid :=
  ⟨JsMap.get_delete_self t sid, JsMap.delete_delete t sid⟩

/-- Claim C4: for every operation name outside the registry of the variant,
the CallTool handler returns the uniform error envelope, with the
unknown-tool message and the isError flag set, and no exception escapes:
the default branch throws inside the try block and the catch converts the
throw into this envelope. -/
theorem callTool_unknown_operation_error_envelope (registry : List String)
    (collab : String → Except String String) (l : Ledger) (now : Nat)
    (name : String) (h : registry.contains name = false) :
    (handleCallTool registry collab l now name).2 =
      ⟨"Error: " ++ ("Unknown tool: " ++ name), true⟩ := by
  have h2 : ¬ name ∈ registry := by simpa using h
  simp [handleCallTool, h2]

/-- Witness for C4 at the four-tool registry and an unregistered name. -/
theorem callTool_unknown_operation_error_envelope_witness :
    (handleCallTool toolRegistryMain (fun _ => Except.ok "") [] 0
        "nonexistent_tool").2 =
      ⟨"Error: " ++ ("Unknown tool: " ++ "nonexistent_tool"), true⟩ :=
  callTool_unknown_operation_error_envelope toolRegistryMain
    (fun _ => Except.ok "") [] 0 "nonexistent_tool" (by decide)

/-- Claim C5, counterexample: recordUsage runs before the switch, so usage
is recorded even for a name outside the registry; the claim that the
registry check precedes the recording, so that an unregistered name leaves
the ledger unchanged, is false for the code as written. -/
theorem callTool_usage_recorded_for_unknown :
    ¬ (∀ (registry : List String) (collab : String → Except String String)
         (l : Ledger) (now : Nat) (name : String),
        registry.contains name = false →
          (handleCallTool registry collab l now name).1 = l) := by
  intro hclaim
  have h2 := hclaim toolRegistryMain (fun _ => Except.ok "") [] 0 "nope" (by decide)
  have h3 : (handleCallTool toolRegistryMain (fun _ => Except.ok "") [] 0
      "nope").1 = [(("streamable-session", "nope"), ⟨1, 0⟩)] := by decide
  rw [h3] at h2
  exact absurd h2 (by decide)

/-- Claim C5, amended: the handler records usage unconditionally for every
dispatch, registered or not, before the registry check and before any
collaborator runs.  The resulting ledger is exactly recordUsage applied to
the incoming ledger, whatever the collaborator returns, so a failing
collaborator call still leaves the usage recorded; a name outside the
registry is then answered with the error envelope after the recording. -/
theorem callTool_usage_before_registry_check (registry : List String)
    (collab : String → Except String String) (l : Ledger) (now : Nat)
    (name : String) :
    (handleCallTool registry collab l now name).1 =
      recordUsage l "streamable-session" name now ∧
    (registry.contains name = false →
      (handleCallTool registry collab l now name).2.isError = true) := by
  constructor
  · by_cases h : name ∈ registry
    · cases hc : collab name with
      | ok r => simp [handleCallTool, h, hc]
      | error msg => simp [handleCallTool, h, hc]
    · simp [handleCallTool, h]
  · intro h
    have h2 : ¬ name ∈ registry := by simpa using h
    simp [handleCallTool, h2]

/-- Witness for C5 amended, dispatching an unregistered name over the empty
ledger with a collaborator that always fails. -/
theorem callTool_usage_before_registry_check_witness :
    (handleCallTool toolRegistryMain (fun _ => Except.error "boom") [] 0
        "nope").1 = recordUsage [] "streamable-session" "nope" 0 ∧
    (handleCallTool toolRegistryMain (fun _ => Except.error "boom") [] 0
        "nope").2.isError = true :=
  ⟨(callTool_usage_before_registry_check toolRegistryMain
      (fun _ => Except.error "boom") [] 0 "nope").1,
   (callTool_usage_before_registry_check toolRegistryMain
      (fun _ => Except.error "boom") [] 0 "nope").2 (by decide)⟩

/-- Claim C6: a get after a set for the same key returns the stored value
while fewer than ttl seconds have elapsed, and returns absent once ttl
seconds have elapsed even without an intervening write; an expiry detected
on the read removes the entry from the backing store. -/
theorem cache_get_after_set_ttl {α : Type} (c : CacheService α) (k : String)
    (v : α) (t0 t1 : Nat) :
    (t1 - t0 < c.ttl → ((c.set k v t0).get k t1).1 = some v) ∧
    (c.ttl ≤ t1 - t0 →
      ((c.set k v t0).get k t1).1 = none ∧
      ((c.set k v t0).get k t1).2.store.get k = none) := by
  have hstore : (c.set k v t0).store.get k = some ⟨v, t0⟩ :=
    JsMap.get_set_self c.store k ⟨v, t0⟩
  constructor
  · intro hfresh
    have hlt : ¬ c.ttl ≤ t1 - t0 := Nat.not_le.mpr hfresh
    simp [CacheService.get, CacheService.set] at hstore ⊢
    simp [hstore, hlt]
  · intro hexp
    simp [CacheService.get, CacheService.set] at hstore ⊢
    simp [hstore, hexp, JsMap.get_delete_self]

/-- Witness for C6 on a cache with a ttl of ten seconds: a read three
seconds after the set returns the value, a read ten seconds after the set
returns absent and evicts the entry. -/
theorem cache_get_after_set_ttl_witness :
    ((CacheService.set ⟨10, []⟩ "k" (5 : Nat) 0).get "k" 3).1 = some 5 ∧
    ((CacheService.set ⟨10, []⟩ "k" (5 : Nat) 0).get "k" 10).1 = none ∧
    ((CacheService.set ⟨10, []⟩ "k" (5 : Nat) 0).get "k" 10).2.store.get "k" =
      none :=
  ⟨(cache_get_after_set_ttl ⟨10, []⟩ "k" 5 0 3).1 (by decide),
   ((cache_get_after_set_ttl ⟨10, []⟩ "k" 5 0 10).2 (by decide)).1,
   ((cache_get_after_set_ttl ⟨10, []⟩ "k" 5 0 10).2 (by decide)).2⟩

/-- Claim C7: a POST to /mcp naming a session that was never opened is
rejected with the SessionNotFound-class response of each stateful variant
and has no side effect on the session map: the map after the request is
the map before it, so no channel is created and no entry is added or
removed. -/
theorem postMessage_never_opened_no_side_effect {α : Type} (t : JsMap α)
    (hdr : Option String) (sid : String) (hnever : t.has sid = false) :
    postMessageMain t hdr (some sid) =
      (.rejected 404 (.errObj "Session not found. Connect via GET first."), t) ∧
    postMessage001 t none (some sid) =
      (.rejected 401
        (.errObj "Session ID required or invalid. Connect via GET /mcp first."),
       t) := by
  have hget : t.get sid = none :=
    (JsMap.has_eq_false_iff_get_eq_none t sid).mp hnever
  constructor
  · by_cases hsid : sid = ""
    · simp [postMessageMain, sessionKeyMain, hsid]
    · simp [postMessageMain, sessionKeyMain, hsid, hget]
  · by_cases hsid : sid = ""
    · simp [postMessage001, sessionKey001, hsid]
    · simp [postMessage001, sessionKey001, hsid, hget]

/-- Witness for C7 over the empty session map. -/
theorem postMessage_never_opened_no_side_effect_witness :
    postMessageMain ([] : JsMap Nat) none (some "s") =
      (.rejected 404 (.errObj "Session not found. Connect via GET first."),
       []) ∧
    postMessage001 ([] : JsMap Nat) none (some "s") =
      (.rejected 401
        (.errObj "Session ID required or invalid. Connect via GET /mcp first."),
       []) :=
  postMessage_never_opened_no_side_effect ([] : JsMap Nat) none "s" (by decide)

/-- Claim C8, counterexample: the POST handler of mcp-server.js reads only
the sessionId query parameter, so on a request carrying both a header
identifier and a query identifier the query value is used for the lookup;
the claim that the header is consulted first in every variant is false for
the code as written. -/
theorem sessionKeyMain_ignores_header :
    ¬ (∀ (h q : String), h ≠ "" →
        sessionKeyMain (some h) (some q) = some h) := by
  intro hclaim
  have h2 := hclaim "header-id" "query-id" (by decide)
  have h3 : sessionKeyMain (some "header-id") (some "query-id") =
      some "query-id" := rfl
  rw [h3] at h2
  exact absurd h2 (by decide)

/-- Claim C8, amended: the part_001 variant consults the x-mcp-session-id
header first and the sessionId query parameter second, the header winning
whenever it carries a truthy value; the mcp-server.js variant consults
only the query parameter and ignores any header. -/
theorem sessionKey_priority_by_variant (h q : String) (hdr : Option String) :
    (h ≠ "" → sessionKey001 (some h) (some q) = some h) ∧
    sessionKey001 none (some q) = some q ∧
    sessionKey001 (some "") (some q) = some q ∧
    sessionKeyMain hdr (some q) = some q := by
  refine ⟨?_, rfl, by simp [sessionKey001], rfl⟩
  intro hh
  simp [sessionKey001, hh]

/-- Witness for C8 amended at concrete header and query identifiers. -/
theorem sessionKey_priority_by_variant_witness :
    sessionKey001 (some "header-id") (some "query-id") = some "header-id" ∧
    sessionKeyMain (some "header-id") (some "query-id") = some "query-id" :=
  ⟨(sessionKey_priority_by_variant "header-id" "query-id"
      (some "header-id")).1 (by decide),
   (sessionKey_priority_by_variant "header-id" "query-id"
      (some "header-id")).2.2.2⟩

/-- Claim C9, counterexample: it is not the case that every variant rejects
a DELETE to /mcp at the server: the part_002 variant delegates every /mcp
request, DELETE included, to the shared SDK transport and writes no
rejection of its own. -/
theorem delete_rejection_counterexample :
    ¬ ((routeMain "DELETE" "/mcp").isRejection = true ∧
       (route000 "DELETE" "/mcp").isRejection = true ∧
       (route001 "DELETE" "/mcp").isRejection = true ∧
       (route002 "DELETE" "/mcp").isRejection = true) := by
  decide

/-- Claim C9, amended: the stateless part_000 variant rejects DELETE on
/mcp with an explicit 405; mcp-server.js and the part_001 variant reject
it only through the generic 404 fallthrough; the part_002 variant does not
reject it at all but delegates it to the shared transport. -/
theorem delete_handling_by_variant :
    route000 "DELETE" "/mcp" =
      .respond 405 (.rpcError (-32000) "Method not allowed.") ∧
    routeMain "DELETE" "/mcp" = .respond 404 (.text "Not Found") ∧
    route001 "DELETE" "/mcp" =
      .respond 404 (.text "Not Found - Use /mcp endpoint") ∧
    route002 "DELETE" "/mcp" = .delegate := by
  decide

/-- Claim C10: in every variant the CallTool handler records usage under
the hard-coded session identifier streamable-session, whatever registry
the variant carries and whatever the transport session was: the count for
the dispatched operation under streamable-session rises by one, and the
count of every pair under any other session identifier is unchanged. -/
theorem callTool_hardcoded_session_ledger (registry : List String)
    (collab : String → Except String String) (l : Ledger) (now : Nat)
    (name : String) :
    (handleCallTool registry collab l now name).1.count
        "streamable-session" name = l.count "streamable-session" name + 1 ∧
    ∀ sid op, sid ≠ "streamable-session" →
      (handleCallTool registry collab l now name).1.count sid op =
        l.count sid op := by
  have hledger : (handleCallTool registry collab l now name).1 =
      recordUsage l "streamable-session" name now := by
    by_cases h : name ∈ registry
    · cases hc : collab name with
      | ok r => simp [handleCallTool, h, hc]
      | error msg => simp [handleCallTool, h, hc]
    · simp [handleCallTool, h]
  rw [hledger]
  refine ⟨recordUsage_count_self l "streamable-session" name now, ?_⟩
  intro sid op hsid
  exact recordUsage_count_ne l "streamable-session" name sid op now
    (fun hpair => hsid (congrArg Prod.fst hpair))

/-- Witness for C10, dispatching calculate_bmi over the empty ledger and
checking the count under a transport-assigned session identifier. -/
theorem callTool_hardcoded_session_ledger_witness :
    (handleCallTool toolRegistryMain (fun _ => Except.ok "") [] 0
        "calculate_bmi").1.count "streamable-session" "calculate_bmi" =
      Ledger.count [] "streamable-session" "calculate_bmi" + 1 ∧
    (handleCallTool toolRegistryMain (fun _ => Except.ok "") [] 0
        "calculate_bmi").1.count "real-transport-session" "calculate_bmi" =
      Ledger.count [] "real-transport-session" "calculate_bmi" :=
  ⟨(callTool_hardcoded_session_ledger toolRegistryMain (fun _ => Except.ok "")
      [] 0 "calculate_bmi").1,
   (callTool_hardcoded_session_ledger toolRegistryMain (fun _ => Except.ok "")
      [] 0 "calculate_bmi").2 "real-transport-session" "calculate_bmi"
     (by decide)⟩

end HealthcareMcp
